import Mathlib

/-!
Verification development for the HydraDX omnipool-subpools cross-pool
trade-resolution engine (`pallets/omnipool-subpools/src/lib.rs`).

The pallet's dispatchables and internal resolvers are embedded as state
transformers over an explicit chain state.  External collaborators —
the omnipool pallet's trade functions, the stableswap pallet's own
sell/buy/add-liquidity, and the pure functions of the hydra-dx-math
crate — are passed in as a dependency record (`Deps`), mirroring the
interface contracts of the specification.  Storage items owned by the
pallet (`MigratedAssets`, `Subpools`) and the simple collaborator
storage the engine reads and writes (omnipool asset states, stableswap
pools, ledger balances, issuances, positions) are modelled concretely.
-/

namespace HydraDX

/-- Association-list map with decidable keys; models a substrate `StorageMap`. -/
abbrev Map (α β : Type) : Type := List (α × β)

namespace Map

variable {α β : Type} [DecidableEq α]

/-- The empty map. -/
def empty {α β : Type} : Map α β := []

/-- Lookup of a key. -/
def get? : Map α β → α → Option β
  | [], _ => none
  | (k, v) :: rest, a => if k = a then some v else get? rest a

/-- Remove a key. -/
def eraseKey : Map α β → α → Map α β
  | [], _ => []
  | (k, v) :: rest, a => if k = a then eraseKey rest a else (k, v) :: eraseKey rest a

/-- Insert or replace a key. -/
def insert (m : Map α β) (a : α) (b : β) : Map α β :=
  (a, b) :: m.eraseKey a

end Map

/-- Asset identifier (`AssetId` of both pallets; the two id types are
inter-convertible in the pallet's bounds, so one type is used). -/
abbrev AssetId := Nat

/-- Account identifier. -/
abbrev AccountId := Nat

/-- Balance type (u128 amounts; arithmetic the engine performs itself is
checked, so `Nat` with explicit checked operations is faithful). -/
abbrev Balance := Nat

/-- Position (NFT instance) identifier. -/
abbrev PositionItemId := Nat

/-- Permill fee values are carried opaquely by the engine (it only passes
them to the math collaborators), so parts-per-million as `Nat`. -/
abbrev Permill := Nat

/-- Tradability flag set of an asset: bitflags SELL / BUY / ADD_LIQUIDITY /
REMOVE_LIQUIDITY, shared layout between the omnipool and stableswap pallets. -/
structure Tradability where
  canSell : Bool
  canBuy : Bool
  canAddLiquidity : Bool
  canRemoveLiquidity : Bool
deriving DecidableEq, Repr

namespace Tradability

/-- Bit encoding of the flag set (SELL = 0b0001, BUY = 0b0010,
ADD_LIQUIDITY = 0b0100, REMOVE_LIQUIDITY = 0b1000). -/
def bits (t : Tradability) : Nat :=
  (if t.canSell then 1 else 0) + (if t.canBuy then 2 else 0) +
    (if t.canAddLiquidity then 4 else 0) + (if t.canRemoveLiquidity then 8 else 0)

/-- Decode a bitmask, dropping unknown bits (`from_bits_truncate`). -/
def from_bits_truncate (n : Nat) : Tradability :=
  ⟨n.testBit 0, n.testBit 1, n.testBit 2, n.testBit 3⟩

/-- The SELL flag. -/
def SELL : Tradability := ⟨true, false, false, false⟩

/-- The BUY flag. -/
def BUY : Tradability := ⟨false, true, false, false⟩

/-- Default tradability: all flags set. -/
def default : Tradability := ⟨true, true, true, true⟩

/-- Flag-set containment (`bitflags::contains`): all bits of `f` present in `t`. -/
def contains (t f : Tradability) : Bool :=
  (!f.canSell || t.canSell) && (!f.canBuy || t.canBuy) &&
    (!f.canAddLiquidity || t.canAddLiquidity) && (!f.canRemoveLiquidity || t.canRemoveLiquidity)

end Tradability

/-- Omnipool per-asset state as read through `load_asset_state`
(spec §3 `HubAssetState`): reserve, hub reserve, shares, weight cap,
tradability flags. -/
structure HubAssetState where
  reserve : Balance
  hub_reserve : Balance
  shares : Balance
  cap : Nat
  tradable : Tradability
deriving DecidableEq, Repr

/-- Stable-pool invariant state computed by the math collaborator for a
freshly created subpool (reserve / hub-reserve / shares of the share asset). -/
structure MathAssetState where
  reserve : Balance
  hub_reserve : Balance
  shares : Balance
deriving DecidableEq, Repr

/-- Migration detail of one migrated asset (spec §3 `MigrationRecord` value):
price at migration, shares attributed, hub-reserve attributed, share-token
amount attributed.  (`types.rs` `AssetDetail`.) -/
structure AssetDetail where
  price : Nat
  shares : Balance
  hub_reserve : Balance
  share_tokens : Balance
deriving DecidableEq, Repr

/-- Math-crate `MigrationDetails`, same fields as `AssetDetail`. -/
structure MigrationDetails where
  price : Nat
  shares : Balance
  hub_reserve : Balance
  share_tokens : Balance
deriving DecidableEq, Repr

/-- An LP position (spec §3 `Position`): referenced asset id, deposited
amount, shares, entry price. -/
structure Position where
  asset_id : AssetId
  amount : Balance
  shares : Balance
  price : Nat
deriving DecidableEq, Repr

/-- Result of the math-crate position conversion: rescaled amount, shares
and price, to be re-keyed to the subpool share asset. -/
structure ConvertedPosition where
  amount : Balance
  shares : Balance
  price : Nat
deriving DecidableEq, Repr

/-- Stableswap pool record as used by the engine: member assets,
amplification, trade fee, withdrawal fee. -/
structure StablePool where
  assets : List AssetId
  amplification : Nat
  trade_fee : Permill
  withdraw_fee : Permill
deriving DecidableEq, Repr

namespace StablePool

/-- Index of an asset in the pool (`find_asset`). -/
def find_asset (p : StablePool) (a : AssetId) : Option Nat :=
  p.assets.indexOf? a

end StablePool

/-- One side of a `TradeStateChange` returned by the hub-pool trade
contract; the engine dereferences the delta magnitudes only. -/
structure AssetStateChange where
  delta_reserve : Balance
  delta_hub_reserve : Balance
deriving DecidableEq, Repr

/-- Hub-pool trade contract output for a two-asset trade (spec §3
`TradeStateChange`). -/
structure TradeStateChanges where
  asset_in : AssetStateChange
  asset_out : AssetStateChange
deriving DecidableEq, Repr

/-- Hub-pool trade contract output for a hub-asset trade (single asset leg). -/
structure HubTradeStateChanges where
  asset : AssetStateChange
deriving DecidableEq, Repr

/-- State change of the share asset computed by
`calculate_asset_migration_details` for a migration into an existing pool. -/
structure MigStateChange where
  delta_reserve : Balance
  delta_hub_reserve : Balance
  delta_shares : Balance
deriving DecidableEq, Repr

/-- Errors of the omnipool collaborator observed by the engine. -/
inductive OmnipoolError
  | AssetNotFound
  | NotAllowed
  | other (code : Nat)
deriving DecidableEq, Repr

/-- Errors of the stableswap collaborator observed by the engine. -/
inductive StableswapError
  | PoolNotFound
  | AssetNotInPool
  | other (code : Nat)
deriving DecidableEq, Repr

/-- Dispatch error: the pallet's own `Error<T>` variants plus collaborator
errors and the ledger's insufficient-balance failure. -/
inductive Err
  | SubpoolNotFound
  | WithdrawAssetNotSpecified
  | NotStableAsset
  | Math
  | LimitExceeded
  | LimitNotReached
  | NotAllowed
  | InsufficientBalance
  | omnipool (e : OmnipoolError)
  | stableswap (e : StableswapError)
  | other (code : Nat)
deriving DecidableEq, Repr

/-- Persisted state visible to the engine: omnipool asset-state table,
stableswap pool table and per-pool-asset tradability, ledger balances and
total issuances, omnipool LP positions (with their NFT owner), and the
pallet's own `MigratedAssets` and `Subpools` registries.  `imbalance` is
the magnitude of the omnipool's current (negative) imbalance. -/
structure ChainState where
  omnipool_assets : Map AssetId HubAssetState
  stable_pools : Map AssetId StablePool
  stable_tradability : Map (AssetId × AssetId) Tradability
  balances : Map (AssetId × AccountId) Balance
  issuance : Map AssetId Balance
  positions : Map PositionItemId (AccountId × Position)
  migrated_assets : Map AssetId (AssetId × AssetDetail)
  subpools : Map AssetId Unit
  imbalance : Balance
deriving DecidableEq, Repr

/-- Effect monad of the embedding: a state transformer over `ChainState`
returning `Except Err`.  Storage writes are applied eagerly, exactly like
raw substrate storage writes: an error does NOT undo the writes performed
before it (transaction rollback is a separate, explicit wrapper). -/
def M (α : Type) : Type := ChainState → Except Err α × ChainState

/-- Monadic return. -/
def M.pureM {α : Type} (a : α) : M α := fun s => (Except.ok a, s)

/-- Monadic bind; on error the state reached so far is kept. -/
def M.bindM {α β : Type} (x : M α) (f : α → M β) : M β := fun s =>
  match x s with
  | (Except.ok a, s₁) => f a s₁
  | (Except.error e, s₁) => (Except.error e, s₁)

instance : Monad M where
  pure := M.pureM
  bind := M.bindM

/-- Abort with a dispatch error. -/
def M.fail {α : Type} (e : Err) : M α := fun s => (Except.error e, s)

/-- The `ensure!` macro: fail with `e` unless `c` holds. -/
def ensureM (c : Bool) (e : Err) : M Unit :=
  if c then M.pureM () else M.fail e

/-- The `ok_or` pattern: lift an `Option` into `M`, failing with `e` on `none`. -/
def okOr {α : Type} (o : Option α) (e : Err) : M α :=
  match o with
  | some a => M.pureM a
  | none => M.fail e

/-- Read the whole state. -/
def M.getS : M ChainState := fun s => (Except.ok s, s)

/-- Replace the whole state. -/
def M.modifyS (f : ChainState → ChainState) : M Unit := fun s => (Except.ok (), f s)

/-- Free balance of `asset` on `account` (zero when absent). -/
def freeBalance (s : ChainState) (asset : AssetId) (account : AccountId) : Balance :=
  (s.balances.get? (asset, account)).getD 0

/-- Total issuance of an asset (zero when absent). -/
def totalIssuance (s : ChainState) (asset : AssetId) : Balance :=
  (s.issuance.get? asset).getD 0

/-- Modelled from the spec: the ledger collaborator's `transfer` (§6) —
atomic, fails only on insufficient balance of the source account. -/
def transferM (asset : AssetId) (source dest : AccountId) (amount : Balance) : M Unit :=
  fun s =>
    let b := freeBalance s asset source
    if amount ≤ b then
      let s₁ : ChainState := { s with balances := s.balances.insert (asset, source) (b - amount) }
      (Except.ok (),
        { s₁ with balances := s₁.balances.insert (asset, dest) (freeBalance s₁ asset dest + amount) })
    else (Except.error Err.InsufficientBalance, s)

/-- Modelled from the spec: the ledger collaborator's `mint` (§6) —
credits the account and raises total issuance. -/
def depositM (asset : AssetId) (dest : AccountId) (amount : Balance) : M Unit :=
  fun s =>
    let s₁ : ChainState :=
      { s with balances := s.balances.insert (asset, dest) (freeBalance s asset dest + amount) }
    (Except.ok (), { s₁ with issuance := s₁.issuance.insert asset (totalIssuance s₁ asset + amount) })

/-- Modelled from the spec: the ledger collaborator's `burn` (§6) —
debits the account (failing on insufficient balance) and lowers issuance. -/
def withdrawM (asset : AssetId) (source : AccountId) (amount : Balance) : M Unit :=
  fun s =>
    let b := freeBalance s asset source
    if amount ≤ b then
      let s₁ : ChainState := { s with balances := s.balances.insert (asset, source) (b - amount) }
      (Except.ok (), { s₁ with issuance := s₁.issuance.insert asset (totalIssuance s₁ asset - amount) })
    else (Except.error Err.InsufficientBalance, s)

/-- Checked subtraction (`checked_sub` on u128). -/
def checkedSub (a b : Balance) : Option Balance :=
  if b ≤ a then some (a - b) else none

/-- External collaborators consumed by the engine, passed as a dependency
record (spec §9: dependency injection).  The math-crate entries are pure
functions `… → Option …` (spec §4.1/§4.3: pure, `Math` failure as `none`);
the pallet-level entries whose internals the engine never inspects are
arbitrary state transformers. -/
structure Deps where
  hubAssetId : AssetId
  protocolAccount : AccountId
  poolAccount : AssetId → AccountId
  assetFee : Permill
  protocolFee : Permill
  is_hub_asset_allowed : Tradability → Bool
  omnipool_sell : AccountId → AssetId → AssetId → Balance → Balance → M Unit
  omnipool_buy : AccountId → AssetId → AssetId → Balance → Balance → M Unit
  omnipool_add_liquidity : AccountId → AssetId → Balance → M Unit
  omnipool_remove_liquidity : AccountId → PositionItemId → Balance → M Unit
  stableswap_sell : AccountId → AssetId → AssetId → AssetId → Balance → Balance → M Unit
  stableswap_buy : AccountId → AssetId → AssetId → AssetId → Balance → Balance → M Unit
  do_add_liquidity : AccountId → AssetId → AssetId → Balance → M Balance
  remove_liquidity_one_asset : AccountId → AssetId → AssetId → Balance → M Unit
  update_omnipool_state_given_trade_result : AssetId → AssetId → TradeStateChanges → M Unit
  update_omnipool_state_given_hub_asset_trade : AssetId → HubTradeStateChanges → M Unit
  update_asset_state : AssetId → MigStateChange → M Unit
  calculate_shares_removed : List Balance → Nat → Balance → Nat → Balance → Permill → Option Balance
  calculate_shares_for_amount : List Balance → Nat → Balance → Nat → Balance → Option Balance
  calculate_amount_to_add_for_shares : List Balance → Nat → Balance → Nat → Balance → Option Balance
  calculate_withdraw_one_asset : List Balance → Balance → Nat → Balance → Nat → Permill →
    Option (Balance × Balance)
  calculate_buy_state_changes : HubAssetState → HubAssetState → Balance → Permill → Permill →
    Balance → Option TradeStateChanges
  calculate_sell_state_changes : HubAssetState → HubAssetState → Balance → Permill → Permill →
    Balance → Option TradeStateChanges
  calculate_sell_hub_state_changes : HubAssetState → Balance → Permill → Balance → Balance →
    Option HubTradeStateChanges
  calculate_buy_for_hub_asset_state_changes : HubAssetState → Balance → Permill → Balance →
    Balance → Option HubTradeStateChanges
  create_new_subpool : HubAssetState → HubAssetState → Option MathAssetState
  calculate_asset_migration_details : HubAssetState → Option HubAssetState → Balance →
    Option (AssetDetail × Option MigStateChange)
  convert_position_math : Position → MigrationDetails → Option ConvertedPosition

/-- Modelled from the spec: the omnipool collaborator's `loadAssetState`
(§6) — the asset's state, or `AssetNotFound`. -/
def load_asset_state (id : AssetId) : M HubAssetState := fun s =>
  match s.omnipool_assets.get? id with
  | some a => (Except.ok a, s)
  | none => (Except.error (Err.omnipool OmnipoolError.AssetNotFound), s)

/-- Modelled from the spec: the omnipool collaborator's asset registration
used by `create_subpool` — inserts a brand-new asset, refusing an id that
already has omnipool state. -/
def omnipool_add_asset (id : AssetId) (st : HubAssetState) : M Unit := fun s =>
  match s.omnipool_assets.get? id with
  | some _ => (Except.error (Err.omnipool (OmnipoolError.other 0)), s)
  | none => (Except.ok (), { s with omnipool_assets := s.omnipool_assets.insert id st })

/-- Modelled from the spec: removal of an asset from the hub pool (§4.5
"removes both original assets from the hub pool"). -/
def omnipool_remove_asset (id : AssetId) : M Unit := fun s =>
  match s.omnipool_assets.get? id with
  | some _ => (Except.ok (), { s with omnipool_assets := s.omnipool_assets.eraseKey id })
  | none => (Except.error (Err.omnipool OmnipoolError.AssetNotFound), s)

/-- Modelled from the spec: loading an LP position by id, checking the
caller owns it (§3: positions are owned by an account). -/
def load_position (position_id : PositionItemId) (who : AccountId) : M Position := fun s =>
  match s.positions.get? position_id with
  | some (owner, p) =>
    if owner = who then (Except.ok p, s)
    else (Except.error (Err.omnipool (OmnipoolError.other 1)), s)
  | none => (Except.error (Err.omnipool (OmnipoolError.other 1)), s)

/-- Modelled from the spec: storing back a rewritten position (the lazily
converted position of §4.5), keeping its owner. -/
def set_position (position_id : PositionItemId) (p : Position) : M Unit := fun s =>
  match s.positions.get? position_id with
  | some (owner, _) =>
    (Except.ok (), { s with positions := s.positions.insert position_id (owner, p) })
  | none => (Except.error (Err.omnipool (OmnipoolError.other 1)), s)

/-- Modelled from the spec: the stableswap collaborator's `getPool` (§6). -/
def get_pool (pool_id : AssetId) : M StablePool := fun s =>
  match s.stable_pools.get? pool_id with
  | some p => (Except.ok p, s)
  | none => (Except.error (Err.stableswap StableswapError.PoolNotFound), s)

/-- Modelled from the spec: the stableswap collaborator's per-asset
tradability check (§6 `isAssetAllowed`); an asset with no stored flags has
the default (all-permitted) flags. -/
def is_asset_allowed (s : ChainState) (pool_id asset : AssetId) (f : Tradability) : Bool :=
  ((s.stable_tradability.get? (pool_id, asset)).getD Tradability.default).contains f

/-- Modelled from the spec: setting the tradability flags of a pool asset
(infallible, mirrors `set_asset_tradability_state`). -/
def set_asset_tradability_state (pool_id asset : AssetId) (t : Tradability) : M Unit := fun s =>
  (Except.ok (), { s with stable_tradability := s.stable_tradability.insert (pool_id, asset) t })

/-- Modelled from the spec: `do_create_pool` of the stableswap pallet —
creates the pool over the given assets with the given amplification and
fees, returning the pool id (the pre-registered share asset id); fails if
a pool with that id already exists. -/
def do_create_pool (share_asset : AssetId) (assets : List AssetId) (amplification : Nat)
    (trade_fee withdraw_fee : Permill) : M AssetId := fun s =>
  match s.stable_pools.get? share_asset with
  | some _ => (Except.error (Err.stableswap (StableswapError.other 0)), s)
  | none =>
    (Except.ok share_asset,
      { s with stable_pools :=
          s.stable_pools.insert share_asset ⟨assets, amplification, trade_fee, withdraw_fee⟩ })

/-- Modelled from the spec: `add_asset_to_existing_pool` — appends the
asset to an existing pool's member list; the pool must exist and the asset
must not already be a member. -/
def add_asset_to_existing_pool (pool_id asset : AssetId) : M Unit := fun s =>
  match s.stable_pools.get? pool_id with
  | some p =>
    if asset ∈ p.assets then (Except.error (Err.stableswap (StableswapError.other 1)), s)
    else
      (Except.ok (),
        { s with stable_pools :=
            s.stable_pools.insert pool_id { p with assets := p.assets ++ [asset] } })
  | none => (Except.error (Err.stableswap StableswapError.PoolNotFound), s)

/-- Modelled from the spec: `move_liquidity_to_pool` — ledger transfers of
the listed amounts from the given account into the pool's account (§4.5
"transfers both assets' hub-pool reserves into the stable pool's account"). -/
def move_liquidity_to_pool (deps : Deps) (source : AccountId) (pool_id : AssetId)
    (assets : List (AssetId × Balance)) : M Unit :=
  match assets with
  | [] => M.pureM ()
  | (asset, amount) :: rest =>
    M.bindM (transferM asset source (deps.poolAccount pool_id) amount) fun _ =>
      move_liquidity_to_pool deps source pool_id rest

/-- Modelled from the spec: `deposit_shares` — mints the given amount of
the pool's share token to the account. -/
def deposit_shares (who : AccountId) (pool_id : AssetId) (amount : Balance) : M Unit :=
  depositM pool_id who amount

/-- Ledger balances of the pool's member assets held by the pool account
(`subpool.balances::<T>()`). -/
def StablePool.balancesOf (deps : Deps) (s : ChainState) (pool_id : AssetId)
    (p : StablePool) : List Balance :=
  p.assets.map fun a => freeBalance s a (deps.poolAccount pool_id)

/-- Pure variant of `ensure!` for the read-only planning phase. -/
def pEnsure (c : Bool) (e : Err) : Except Err Unit :=
  if c then Except.ok () else Except.error e

/-- Pure variant of `ok_or` for the read-only planning phase. -/
def pOkOr {α : Type} (o : Option α) (e : Err) : Except Err α :=
  match o with
  | some a => Except.ok a
  | none => Except.error e

/-- Pure variant of `load_asset_state` for the read-only planning phase. -/
def pLoadAssetState (s : ChainState) (id : AssetId) : Except Err HubAssetState :=
  pOkOr (s.omnipool_assets.get? id) (Err.omnipool OmnipoolError.AssetNotFound)

/-- Pure variant of `get_pool` for the read-only planning phase. -/
def pGetPool (s : ChainState) (pool_id : AssetId) : Except Err StablePool :=
  pOkOr (s.stable_pools.get? pool_id) (Err.stableswap StableswapError.PoolNotFound)

/-!
Each resolver of the engine performs, in source order, a read-only prefix
(tradability checks, storage loads, math-collaborator calls), then the
slippage-limit check, then the mutations.  The read-only prefix is embedded
as a pure *plan* function of the entry state (every step before the limit
check in the source is a storage read or a pure computation), and the
resolver proper runs the plan, validates the limit, and commits.
-/

/-- Read-only prefix of `resolve_sell_between_subpools`
(lib.rs lines 799–865): returns the hub-pool trade state change on the
share assets and the net amount `delta_t_j` credited to the trader. -/
def sell_between_subpools_plan (deps : Deps) (s : ChainState)
    (asset_in asset_out subpool_id_in subpool_id_out : AssetId)
    (amount_in : Balance) : Except Err (TradeStateChanges × Balance) := do
  pEnsure (is_asset_allowed s subpool_id_in asset_in Tradability.SELL &&
      is_asset_allowed s subpool_id_out asset_out Tradability.BUY) Err.NotAllowed
  let subpool_in ← pGetPool s subpool_id_in
  let subpool_out ← pGetPool s subpool_id_out
  let idx_in ← pOkOr (subpool_in.find_asset asset_in) (Err.stableswap StableswapError.AssetNotInPool)
  let idx_out ← pOkOr (subpool_out.find_asset asset_out)
    (Err.stableswap StableswapError.AssetNotInPool)
  let share_asset_state_in ← pLoadAssetState s subpool_id_in
  let share_asset_state_out ← pLoadAssetState s subpool_id_out
  let share_issuance_in := totalIssuance s subpool_id_in
  let share_issuance_out := totalIssuance s subpool_id_out
  let withdraw_fee := subpool_out.withdraw_fee
  let delta_u ← pOkOr (deps.calculate_shares_for_amount
      (subpool_in.balancesOf deps s subpool_id_in) idx_in amount_in
      subpool_in.amplification share_issuance_in) Err.Math
  let sell_changes ← pOkOr (deps.calculate_sell_state_changes share_asset_state_in
      share_asset_state_out delta_u deps.assetFee deps.protocolFee s.imbalance) Err.Math
  let dtf ← pOkOr (deps.calculate_withdraw_one_asset
      (subpool_out.balancesOf deps s subpool_id_out) sell_changes.asset_out.delta_reserve idx_out
      share_issuance_out subpool_out.amplification withdraw_fee) Err.Math
  let delta_t_j ← pOkOr (checkedSub dtf.1 dtf.2) Err.Math
  Except.ok (sell_changes, delta_t_j)

/-- Mutation suffix of `resolve_sell_between_subpools`
(lib.rs lines 869–898). -/
def sell_between_subpools_commit (deps : Deps) (who : AccountId)
    (asset_in asset_out subpool_id_in subpool_id_out : AssetId)
    (amount_in : Balance) (sell_changes : TradeStateChanges) (delta_t_j : Balance) : M Unit :=
  M.bindM (transferM asset_in who (deps.poolAccount subpool_id_in) amount_in) fun _ =>
  M.bindM (transferM asset_out (deps.poolAccount subpool_id_out) who delta_t_j) fun _ =>
  M.bindM (withdrawM subpool_id_out deps.protocolAccount sell_changes.asset_out.delta_reserve)
    fun _ =>
  M.bindM (depositM subpool_id_in deps.protocolAccount sell_changes.asset_in.delta_reserve) fun _ =>
  deps.update_omnipool_state_given_trade_result subpool_id_in subpool_id_out sell_changes

/-- Resolve a sell trade between two different stableswap subpools
(lib.rs `resolve_sell_between_subpools`). -/
def resolve_sell_between_subpools (deps : Deps) (who : AccountId)
    (asset_in asset_out subpool_id_in subpool_id_out : AssetId)
    (amount_in min_limit : Balance) : M Unit := fun s =>
  match sell_between_subpools_plan deps s asset_in asset_out subpool_id_in subpool_id_out
      amount_in with
  | Except.error e => (Except.error e, s)
  | Except.ok (sell_changes, delta_t_j) =>
    if min_limit ≤ delta_t_j then
      sell_between_subpools_commit deps who asset_in asset_out subpool_id_in subpool_id_out
        amount_in sell_changes delta_t_j s
    else (Except.error Err.LimitNotReached, s)

/-- Read-only prefix of `resolve_buy_between_subpools`
(lib.rs lines 684–748): returns the hub-pool trade state change on the
share assets and the amount `delta_t_j` to be debited from the trader. -/
def buy_between_subpools_plan (deps : Deps) (s : ChainState)
    (asset_in asset_out subpool_id_in subpool_id_out : AssetId)
    (amount_out : Balance) : Except Err (TradeStateChanges × Balance) := do
  pEnsure (is_asset_allowed s subpool_id_in asset_in Tradability.SELL &&
      is_asset_allowed s subpool_id_out asset_out Tradability.BUY) Err.NotAllowed
  let subpool_in ← pGetPool s subpool_id_in
  let subpool_out ← pGetPool s subpool_id_out
  let idx_in ← pOkOr (subpool_in.find_asset asset_in) (Err.stableswap StableswapError.AssetNotInPool)
  let idx_out ← pOkOr (subpool_out.find_asset asset_out)
    (Err.stableswap StableswapError.AssetNotInPool)
  let share_asset_state_in ← pLoadAssetState s subpool_id_in
  let share_asset_state_out ← pLoadAssetState s subpool_id_out
  let share_issuance_in := totalIssuance s subpool_id_in
  let share_issuance_out := totalIssuance s subpool_id_out
  let withdraw_fee := subpool_out.withdraw_fee
  let delta_u ← pOkOr (deps.calculate_shares_removed
      (subpool_out.balancesOf deps s subpool_id_out) idx_out amount_out
      subpool_out.amplification share_issuance_out withdraw_fee) Err.Math
  let buy_changes ← pOkOr (deps.calculate_buy_state_changes share_asset_state_in
      share_asset_state_out delta_u deps.assetFee deps.protocolFee s.imbalance) Err.Math
  let delta_t_j ← pOkOr (deps.calculate_amount_to_add_for_shares
      (subpool_in.balancesOf deps s subpool_id_in) idx_in buy_changes.asset_in.delta_reserve
      subpool_in.amplification share_issuance_in) Err.Math
  Except.ok (buy_changes, delta_t_j)

/-- Mutation suffix of `resolve_buy_between_subpools`
(lib.rs lines 752–783). -/
def buy_between_subpools_commit (deps : Deps) (who : AccountId)
    (asset_in asset_out subpool_id_in subpool_id_out : AssetId)
    (amount_out : Balance) (buy_changes : TradeStateChanges) (delta_t_j : Balance) : M Unit :=
  M.bindM (transferM asset_in who (deps.poolAccount subpool_id_in) delta_t_j) fun _ =>
  M.bindM (transferM asset_out (deps.poolAccount subpool_id_out) who amount_out) fun _ =>
  M.bindM (withdrawM subpool_id_out deps.protocolAccount buy_changes.asset_out.delta_reserve)
    fun _ =>
  M.bindM (depositM subpool_id_in deps.protocolAccount buy_changes.asset_in.delta_reserve) fun _ =>
  deps.update_omnipool_state_given_trade_result subpool_id_in subpool_id_out buy_changes

/-- Resolve a buy trade between two different stableswap subpools
(lib.rs `resolve_buy_between_subpools`). -/
def resolve_buy_between_subpools (deps : Deps) (who : AccountId)
    (asset_in asset_out subpool_id_in subpool_id_out : AssetId)
    (amount_out max_limit : Balance) : M Unit := fun s =>
  match buy_between_subpools_plan deps s asset_in asset_out subpool_id_in subpool_id_out
      amount_out with
  | Except.error e => (Except.error e, s)
  | Except.ok (buy_changes, delta_t_j) =>
    if delta_t_j ≤ max_limit then
      buy_between_subpools_commit deps who asset_in asset_out subpool_id_in subpool_id_out
        amount_out buy_changes delta_t_j s
    else (Except.error Err.LimitExceeded, s)

/-- Read-only prefix of `resolve_mixed_trade_iso_out_given_stable_in`
(lib.rs lines 913–960): sell of a stable asset for an omnipool asset;
returns the trade state change (the trader is credited
`sell_changes.asset_out.delta_reserve`). -/
def mixed_iso_out_given_stable_in_plan (deps : Deps) (s : ChainState)
    (asset_in asset_out subpool_id_in : AssetId)
    (amount_in : Balance) : Except Err TradeStateChanges := do
  pEnsure (asset_out ≠ deps.hubAssetId) (Err.omnipool OmnipoolError.NotAllowed)
  let asset_state_out ← pLoadAssetState s asset_out
  let share_state_in ← pLoadAssetState s subpool_id_in
  pEnsure (is_asset_allowed s subpool_id_in asset_in Tradability.SELL &&
      asset_state_out.tradable.contains Tradability.BUY) Err.NotAllowed
  let subpool_in ← pGetPool s subpool_id_in
  let share_issuance_in := totalIssuance s subpool_id_in
  let idx_in ← pOkOr (subpool_in.find_asset asset_in) (Err.stableswap StableswapError.AssetNotInPool)
  let delta_u ← pOkOr (deps.calculate_shares_for_amount
      (subpool_in.balancesOf deps s subpool_id_in) idx_in amount_in
      subpool_in.amplification share_issuance_in) Err.Math
  let sell_changes ← pOkOr (deps.calculate_sell_state_changes share_state_in asset_state_out
      delta_u deps.assetFee deps.protocolFee s.imbalance) Err.Math
  Except.ok sell_changes

/-- Mutation suffix of `resolve_mixed_trade_iso_out_given_stable_in`
(lib.rs lines 967–986). -/
def mixed_iso_out_given_stable_in_commit (deps : Deps) (who : AccountId)
    (asset_in asset_out subpool_id_in : AssetId)
    (amount_in : Balance) (sell_changes : TradeStateChanges) : M Unit :=
  M.bindM (transferM asset_in who (deps.poolAccount subpool_id_in) amount_in) fun _ =>
  M.bindM (transferM asset_out deps.protocolAccount who sell_changes.asset_out.delta_reserve)
    fun _ =>
  M.bindM (depositM subpool_id_in deps.protocolAccount sell_changes.asset_in.delta_reserve) fun _ =>
  deps.update_omnipool_state_given_trade_result subpool_id_in asset_out sell_changes

/-- Resolve a sell trade where the sold asset is a migrated stable asset
and the bought asset is native to the omnipool
(lib.rs `resolve_mixed_trade_iso_out_given_stable_in`). -/
def resolve_mixed_trade_iso_out_given_stable_in (deps : Deps) (who : AccountId)
    (asset_in asset_out subpool_id_in : AssetId)
    (amount_in min_limit : Balance) : M Unit := fun s =>
  match mixed_iso_out_given_stable_in_plan deps s asset_in asset_out subpool_id_in amount_in with
  | Except.error e => (Except.error e, s)
  | Except.ok sell_changes =>
    if min_limit ≤ sell_changes.asset_out.delta_reserve then
      mixed_iso_out_given_stable_in_commit deps who asset_in asset_out subpool_id_in amount_in
        sell_changes s
    else (Except.error Err.LimitNotReached, s)

/-- Read-only prefix of `resolve_mixed_trade_stable_out_given_hub_asset_in`
(lib.rs lines 1101–1153): sell of the hub asset itself for a stable asset,
through the specialized hub-asset trade formula. -/
def mixed_stable_out_given_hub_asset_in_plan (deps : Deps) (s : ChainState)
    (asset_in asset_out subpool_id_out : AssetId)
    (amount_in : Balance) : Except Err (HubTradeStateChanges × Balance) := do
  pEnsure (asset_in = deps.hubAssetId) (Err.omnipool OmnipoolError.NotAllowed)
  let share_state_out ← pLoadAssetState s subpool_id_out
  let subpool_out ← pGetPool s subpool_id_out
  pEnsure (is_asset_allowed s subpool_id_out asset_out Tradability.BUY &&
      deps.is_hub_asset_allowed Tradability.SELL) Err.NotAllowed
  let share_issuance_out := totalIssuance s subpool_id_out
  let withdraw_fee := subpool_out.withdraw_fee
  let current_hub_asset_liquidity := freeBalance s deps.hubAssetId deps.protocolAccount
  let idx_out ← pOkOr (subpool_out.find_asset asset_out)
    (Err.stableswap StableswapError.AssetNotInPool)
  let sell_changes ← pOkOr (deps.calculate_sell_hub_state_changes share_state_out amount_in
      deps.assetFee s.imbalance current_hub_asset_liquidity) Err.Math
  let dtf ← pOkOr (deps.calculate_withdraw_one_asset
      (subpool_out.balancesOf deps s subpool_id_out) sell_changes.asset.delta_reserve idx_out
      share_issuance_out subpool_out.amplification withdraw_fee) Err.Math
  let delta_t_j ← pOkOr (checkedSub dtf.1 dtf.2) Err.Math
  Except.ok (sell_changes, delta_t_j)

/-- Mutation suffix of `resolve_mixed_trade_stable_out_given_hub_asset_in`
(lib.rs lines 1162–1181). -/
def mixed_stable_out_given_hub_asset_in_commit (deps : Deps) (who : AccountId)
    (asset_in asset_out subpool_id_out : AssetId)
    (sell_changes : HubTradeStateChanges) (delta_t_j : Balance) : M Unit :=
  M.bindM (transferM asset_in who deps.protocolAccount sell_changes.asset.delta_hub_reserve)
    fun _ =>
  M.bindM (transferM asset_out (deps.poolAccount subpool_id_out) who delta_t_j) fun _ =>
  M.bindM (withdrawM subpool_id_out deps.protocolAccount sell_changes.asset.delta_reserve) fun _ =>
  deps.update_omnipool_state_given_hub_asset_trade subpool_id_out sell_changes

/-- Resolve a sell of the hub asset into a stable subpool
(lib.rs `resolve_mixed_trade_stable_out_given_hub_asset_in`). -/
def resolve_mixed_trade_stable_out_given_hub_asset_in (deps : Deps) (who : AccountId)
    (asset_in asset_out subpool_id_out : AssetId)
    (amount_in min_limit : Balance) : M Unit := fun s =>
  match mixed_stable_out_given_hub_asset_in_plan deps s asset_in asset_out subpool_id_out
      amount_in with
  | Except.error e => (Except.error e, s)
  | Except.ok (sell_changes, delta_t_j) =>
    if min_limit ≤ delta_t_j then
      mixed_stable_out_given_hub_asset_in_commit deps who asset_in asset_out subpool_id_out
        sell_changes delta_t_j s
    else (Except.error Err.LimitNotReached, s)

/-- Read-only prefix of the non-hub branch of
`resolve_mixed_trade_stable_out_given_asset_in` (lib.rs lines 1012–1057):
sell of a native omnipool asset for a stable asset. -/
def mixed_stable_out_given_asset_in_plan (deps : Deps) (s : ChainState)
    (asset_in asset_out subpool_id_out : AssetId)
    (amount_in : Balance) : Except Err (TradeStateChanges × Balance) := do
  let asset_state_in ← pLoadAssetState s asset_in
  let share_state_out ← pLoadAssetState s subpool_id_out
  pEnsure (is_asset_allowed s subpool_id_out asset_out Tradability.BUY &&
      asset_state_in.tradable.contains Tradability.SELL) Err.NotAllowed
  let subpool_out ← pGetPool s subpool_id_out
  let share_issuance_out := totalIssuance s subpool_id_out
  let withdraw_fee := subpool_out.withdraw_fee
  let idx_out ← pOkOr (subpool_out.find_asset asset_out)
    (Err.stableswap StableswapError.AssetNotInPool)
  let sell_changes ← pOkOr (deps.calculate_sell_state_changes asset_state_in share_state_out
      amount_in deps.assetFee deps.protocolFee s.imbalance) Err.Math
  let dtf ← pOkOr (deps.calculate_withdraw_one_asset
      (subpool_out.balancesOf deps s subpool_id_out) sell_changes.asset_out.delta_reserve idx_out
      share_issuance_out subpool_out.amplification withdraw_fee) Err.Math
  let delta_t_j ← pOkOr (checkedSub dtf.1 dtf.2) Err.Math
  Except.ok (sell_changes, delta_t_j)

/-- Mutation suffix of the non-hub branch of
`resolve_mixed_trade_stable_out_given_asset_in` (lib.rs lines 1066–1086). -/
def mixed_stable_out_given_asset_in_commit (deps : Deps) (who : AccountId)
    (asset_in asset_out subpool_id_out : AssetId)
    (sell_changes : TradeStateChanges) (delta_t_j : Balance) : M Unit :=
  M.bindM (transferM asset_in who deps.protocolAccount sell_changes.asset_in.delta_reserve)
    fun _ =>
  M.bindM (transferM asset_out (deps.poolAccount subpool_id_out) who delta_t_j) fun _ =>
  M.bindM (withdrawM subpool_id_out deps.protocolAccount sell_changes.asset_out.delta_reserve)
    fun _ =>
  deps.update_omnipool_state_given_trade_result asset_in subpool_id_out sell_changes

/-- Resolve a sell trade where the sold asset is native to the omnipool
and the bought asset is a migrated stable asset
(lib.rs `resolve_mixed_trade_stable_out_given_asset_in`); a hub-asset sale
is redirected to the specialized hub-asset resolver. -/
def resolve_mixed_trade_stable_out_given_asset_in (deps : Deps) (who : AccountId)
    (asset_in asset_out subpool_id_out : AssetId)
    (amount_in min_limit : Balance) : M Unit :=
  if asset_in = deps.hubAssetId then
    resolve_mixed_trade_stable_out_given_hub_asset_in deps who asset_in asset_out subpool_id_out
      amount_in min_limit
  else fun s =>
    match mixed_stable_out_given_asset_in_plan deps s asset_in asset_out subpool_id_out
        amount_in with
    | Except.error e => (Except.error e, s)
    | Except.ok (sell_changes, delta_t_j) =>
      if min_limit ≤ delta_t_j then
        mixed_stable_out_given_asset_in_commit deps who asset_in asset_out subpool_id_out
          sell_changes delta_t_j s
      else (Except.error Err.LimitNotReached, s)

/-- Read-only prefix of `resolve_mixed_trade_stable_in_given_asset_out`
(lib.rs lines 1196–1243): buy of a native omnipool asset paid with a
migrated stable asset; returns the trade state change and the amount
`delta_t_j` to be debited from the trader. -/
def mixed_stable_in_given_asset_out_plan (deps : Deps) (s : ChainState)
    (asset_in asset_out subpool_id_in : AssetId)
    (amount_out : Balance) : Except Err (TradeStateChanges × Balance) := do
  pEnsure (asset_out ≠ deps.hubAssetId) (Err.omnipool OmnipoolError.NotAllowed)
  let asset_state ← pLoadAssetState s asset_out
  let share_state ← pLoadAssetState s subpool_id_in
  pEnsure (is_asset_allowed s subpool_id_in asset_in Tradability.SELL &&
      asset_state.tradable.contains Tradability.BUY) Err.NotAllowed
  let subpool_in ← pGetPool s subpool_id_in
  let share_issuance_in := totalIssuance s subpool_id_in
  let idx_in ← pOkOr (subpool_in.find_asset asset_in) (Err.stableswap StableswapError.AssetNotInPool)
  let buy_changes ← pOkOr (deps.calculate_buy_state_changes share_state asset_state amount_out
      deps.assetFee deps.protocolFee s.imbalance) Err.Math
  let delta_t_j ← pOkOr (deps.calculate_amount_to_add_for_shares
      (subpool_in.balancesOf deps s subpool_id_in) idx_in buy_changes.asset_in.delta_reserve
      subpool_in.amplification share_issuance_in) Err.Math
  Except.ok (buy_changes, delta_t_j)

/-- Mutation suffix of `resolve_mixed_trade_stable_in_given_asset_out`
(lib.rs lines 1252–1272). -/
def mixed_stable_in_given_asset_out_commit (deps : Deps) (who : AccountId)
    (asset_in asset_out subpool_id_in : AssetId)
    (buy_changes : TradeStateChanges) (delta_t_j : Balance) : M Unit :=
  M.bindM (transferM asset_in who (deps.poolAccount subpool_id_in) delta_t_j) fun _ =>
  M.bindM (transferM asset_out deps.protocolAccount who buy_changes.asset_out.delta_reserve)
    fun _ =>
  M.bindM (depositM subpool_id_in deps.protocolAccount buy_changes.asset_in.delta_reserve) fun _ =>
  deps.update_omnipool_state_given_trade_result subpool_id_in asset_out buy_changes

/-- Resolve a buy trade where the bought asset is native to the omnipool
and the paying asset is a migrated stable asset
(lib.rs `resolve_mixed_trade_stable_in_given_asset_out`). -/
def resolve_mixed_trade_stable_in_given_asset_out (deps : Deps) (who : AccountId)
    (asset_in asset_out subpool_id_in : AssetId)
    (amount_out max_limit : Balance) : M Unit := fun s =>
  match mixed_stable_in_given_asset_out_plan deps s asset_in asset_out subpool_id_in amount_out with
  | Except.error e => (Except.error e, s)
  | Except.ok (buy_changes, delta_t_j) =>
    if delta_t_j ≤ max_limit then
      mixed_stable_in_given_asset_out_commit deps who asset_in asset_out subpool_id_in
        buy_changes delta_t_j s
    else (Except.error Err.LimitExceeded, s)

/-- Read-only prefix of `resolve_mixed_trade_hub_asset_in_given_stable_out`
(lib.rs lines 1383–1434): buy of a stable asset paid with the hub asset,
through the specialized hub-asset trade formula. -/
def mixed_hub_asset_in_given_stable_out_plan (deps : Deps) (s : ChainState)
    (asset_in asset_out subpool_id_out : AssetId)
    (amount_out : Balance) : Except Err HubTradeStateChanges := do
  pEnsure (asset_in = deps.hubAssetId) (Err.omnipool OmnipoolError.NotAllowed)
  let share_state_out ← pLoadAssetState s subpool_id_out
  let subpool_out ← pGetPool s subpool_id_out
  pEnsure (is_asset_allowed s subpool_id_out asset_out Tradability.BUY &&
      deps.is_hub_asset_allowed Tradability.SELL) Err.NotAllowed
  let share_issuance_out := totalIssuance s subpool_id_out
  let withdraw_fee := subpool_out.withdraw_fee
  let current_hub_asset_liquidity := freeBalance s deps.hubAssetId deps.protocolAccount
  let idx_out ← pOkOr (subpool_out.find_asset asset_out)
    (Err.stableswap StableswapError.AssetNotInPool)
  let delta_u ← pOkOr (deps.calculate_shares_removed
      (subpool_out.balancesOf deps s subpool_id_out) idx_out amount_out
      subpool_out.amplification share_issuance_out withdraw_fee) Err.Math
  let buy_changes ← pOkOr (deps.calculate_buy_for_hub_asset_state_changes share_state_out delta_u
      deps.assetFee s.imbalance current_hub_asset_liquidity) Err.Math
  Except.ok buy_changes

/-- Mutation suffix of `resolve_mixed_trade_hub_asset_in_given_stable_out`
(lib.rs lines 1438–1458). -/
def mixed_hub_asset_in_given_stable_out_commit (deps : Deps) (who : AccountId)
    (asset_in asset_out subpool_id_out : AssetId)
    (amount_out : Balance) (buy_changes : HubTradeStateChanges) : M Unit :=
  M.bindM (transferM asset_in who deps.protocolAccount buy_changes.asset.delta_hub_reserve)
    fun _ =>
  M.bindM (transferM asset_out (deps.poolAccount subpool_id_out) who amount_out) fun _ =>
  M.bindM (withdrawM subpool_id_out deps.protocolAccount buy_changes.asset.delta_reserve) fun _ =>
  deps.update_omnipool_state_given_hub_asset_trade subpool_id_out buy_changes

/-- Resolve a buy of a stable asset paid with the hub asset
(lib.rs `resolve_mixed_trade_hub_asset_in_given_stable_out`). -/
def resolve_mixed_trade_hub_asset_in_given_stable_out (deps : Deps) (who : AccountId)
    (asset_in asset_out subpool_id_out : AssetId)
    (amount_out max_limit : Balance) : M Unit := fun s =>
  match mixed_hub_asset_in_given_stable_out_plan deps s asset_in asset_out subpool_id_out
      amount_out with
  | Except.error e => (Except.error e, s)
  | Except.ok buy_changes =>
    if buy_changes.asset.delta_reserve ≤ max_limit then
      mixed_hub_asset_in_given_stable_out_commit deps who asset_in asset_out subpool_id_out
        amount_out buy_changes s
    else (Except.error Err.LimitExceeded, s)

/-- Read-only prefix of the non-hub branch of
`resolve_mixed_trade_iso_in_given_stable_out` (lib.rs lines 1298–1341):
buy of a stable asset paid with a native omnipool asset; the trader is
debited `buy_changes.asset_in.delta_reserve`. -/
def mixed_iso_in_given_stable_out_plan (deps : Deps) (s : ChainState)
    (asset_in asset_out subpool_id_out : AssetId)
    (amount_out : Balance) : Except Err TradeStateChanges := do
  let asset_state_in ← pLoadAssetState s asset_in
  let share_state_out ← pLoadAssetState s subpool_id_out
  pEnsure (is_asset_allowed s subpool_id_out asset_out Tradability.BUY &&
      asset_state_in.tradable.contains Tradability.SELL) Err.NotAllowed
  let subpool_out ← pGetPool s subpool_id_out
  let share_issuance_out := totalIssuance s subpool_id_out
  let withdraw_fee := subpool_out.withdraw_fee
  let idx_out ← pOkOr (subpool_out.find_asset asset_out)
    (Err.stableswap StableswapError.AssetNotInPool)
  let delta_u ← pOkOr (deps.calculate_shares_removed
      (subpool_out.balancesOf deps s subpool_id_out) idx_out amount_out
      subpool_out.amplification share_issuance_out withdraw_fee) Err.Math
  let buy_changes ← pOkOr (deps.calculate_buy_state_changes asset_state_in share_state_out
      delta_u deps.assetFee deps.protocolFee s.imbalance) Err.Math
  Except.ok buy_changes

/-- Mutation suffix of the non-hub branch of
`resolve_mixed_trade_iso_in_given_stable_out` (lib.rs lines 1348–1368). -/
def mixed_iso_in_given_stable_out_commit (deps : Deps) (who : AccountId)
    (asset_in asset_out subpool_id_out : AssetId)
    (amount_out : Balance) (buy_changes : TradeStateChanges) : M Unit :=
  M.bindM (transferM asset_in who deps.protocolAccount buy_changes.asset_in.delta_reserve)
    fun _ =>
  M.bindM (transferM asset_out (deps.poolAccount subpool_id_out) who amount_out) fun _ =>
  M.bindM (withdrawM subpool_id_out deps.protocolAccount buy_changes.asset_out.delta_reserve)
    fun _ =>
  deps.update_omnipool_state_given_trade_result asset_in subpool_id_out buy_changes

/-- Resolve a buy trade where the bought asset is a migrated stable asset
and the paying asset is native to the omnipool
(lib.rs `resolve_mixed_trade_iso_in_given_stable_out`); paying with the
hub asset is redirected to the specialized hub-asset resolver. -/
def resolve_mixed_trade_iso_in_given_stable_out (deps : Deps) (who : AccountId)
    (asset_in asset_out subpool_id_out : AssetId)
    (amount_out max_limit : Balance) : M Unit :=
  if asset_in = deps.hubAssetId then
    resolve_mixed_trade_hub_asset_in_given_stable_out deps who asset_in asset_out subpool_id_out
      amount_out max_limit
  else fun s =>
    match mixed_iso_in_given_stable_out_plan deps s asset_in asset_out subpool_id_out amount_out with
    | Except.error e => (Except.error e, s)
    | Except.ok buy_changes =>
      if buy_changes.asset_in.delta_reserve ≤ max_limit then
        mixed_iso_in_given_stable_out_commit deps who asset_in asset_out subpool_id_out
          amount_out buy_changes s
      else (Except.error Err.LimitExceeded, s)

/-- Translation of omnipool tradability flags into stableswap tradability
flags (lib.rs `to_stableswap_tradable`): `from_bits_truncate` of the raw
bits, the two flag sets sharing their bit layout. -/
def to_stableswap_tradable (omnipool_state : Tradability) : Tradability :=
  Tradability.from_bits_truncate omnipool_state.bits

/-- Conversion of an omnipool LP position into a subpool share-asset
position (lib.rs `convert_position`): rescale via the math collaborator
and re-key to the subpool id. -/
def convert_position (deps : Deps) (pool_id : AssetId) (migration_details : AssetDetail)
    (position : Position) : Except Err Position :=
  match deps.convert_position_math position
      ⟨migration_details.price, migration_details.shares, migration_details.hub_reserve,
        migration_details.share_tokens⟩ with
  | some converted =>
    Except.ok ⟨pool_id, converted.amount, converted.shares, converted.price⟩
  | none => Except.error Err.Math

/-- The dispatchable `create_subpool` (lib.rs lines 150–252): migrate two
omnipool assets into a freshly created stableswap subpool. -/
def create_subpool (deps : Deps) (share_asset asset_a asset_b : AssetId)
    (share_asset_weight_cap : Nat) (amplification : Nat)
    (trade_fee withdraw_fee : Permill) : M Unit :=
  M.bindM (load_asset_state asset_a) fun asset_state_a =>
  M.bindM (load_asset_state asset_b) fun asset_state_b =>
  M.bindM (do_create_pool share_asset [asset_a, asset_b] amplification trade_fee withdraw_fee)
    fun pool_id =>
  M.bindM (set_asset_tradability_state pool_id asset_a
    (to_stableswap_tradable asset_state_a.tradable)) fun _ =>
  M.bindM (set_asset_tradability_state pool_id asset_b
    (to_stableswap_tradable asset_state_b.tradable)) fun _ =>
  M.bindM (move_liquidity_to_pool deps deps.protocolAccount pool_id
    [(asset_a, asset_state_a.reserve), (asset_b, asset_state_b.reserve)]) fun _ =>
  M.bindM (okOr (deps.create_new_subpool asset_state_a asset_state_b) Err.Math)
    fun subpool_state =>
  M.bindM (deposit_shares deps.protocolAccount pool_id subpool_state.reserve) fun _ =>
  M.bindM (omnipool_add_asset pool_id
    ⟨subpool_state.reserve, subpool_state.hub_reserve, subpool_state.shares,
      share_asset_weight_cap, Tradability.default⟩) fun _ =>
  M.bindM (okOr (deps.calculate_asset_migration_details asset_state_a none 0) Err.Math)
    fun asset_a_result =>
  M.bindM (okOr (deps.calculate_asset_migration_details asset_state_b none 0) Err.Math)
    fun asset_b_result =>
  M.bindM (omnipool_remove_asset asset_a) fun _ =>
  M.bindM (omnipool_remove_asset asset_b) fun _ =>
  M.modifyS fun s =>
    { s with
      migrated_assets :=
        (s.migrated_assets.insert asset_a (pool_id, asset_a_result.1)).insert asset_b
          (pool_id, asset_b_result.1)
      subpools := s.subpools.insert share_asset () }

/-- The dispatchable `migrate_asset_to_subpool` (lib.rs lines 267–321):
migrate one omnipool asset into an existing stableswap subpool. -/
def migrate_asset_to_subpool (deps : Deps) (pool_id asset_id : AssetId) : M Unit :=
  M.bindM (fun s => (if (s.subpools.get? pool_id).isSome then Except.ok ()
      else Except.error Err.SubpoolNotFound, s)) fun _ =>
  M.bindM (load_asset_state asset_id) fun asset_state =>
  M.bindM (load_asset_state pool_id) fun subpool_state =>
  M.bindM (add_asset_to_existing_pool pool_id asset_id) fun _ =>
  M.bindM (move_liquidity_to_pool deps deps.protocolAccount pool_id
    [(asset_id, asset_state.reserve)]) fun _ =>
  M.bindM (set_asset_tradability_state pool_id asset_id
    (to_stableswap_tradable asset_state.tradable)) fun _ =>
  M.bindM (omnipool_remove_asset asset_id) fun _ =>
  M.bindM (fun s => (Except.ok (totalIssuance s pool_id), s)) fun share_issuance =>
  M.bindM (okOr (deps.calculate_asset_migration_details asset_state (some subpool_state)
    share_issuance) Err.Math) fun details_result =>
  M.bindM (okOr details_result.2 Err.Math) fun state_changes =>
  M.bindM (deposit_shares deps.protocolAccount pool_id state_changes.delta_reserve) fun _ =>
  M.bindM (deps.update_asset_state pool_id state_changes) fun _ =>
  M.modifyS fun s =>
    { s with migrated_assets := s.migrated_assets.insert asset_id (pool_id, details_result.1) }

/-- The dispatchable `add_liquidity` (lib.rs lines 344–360): liquidity in
a migrated asset is deposited into its subpool and the obtained shares
added to the omnipool; otherwise the call is the omnipool's own. -/
def add_liquidity (deps : Deps) (who : AccountId) (asset_id : AssetId)
    (amount : Balance) : M Unit := fun s =>
  match s.migrated_assets.get? asset_id with
  | some (pool_id, _) =>
    (M.bindM (deps.do_add_liquidity who pool_id asset_id amount) fun shares =>
      deps.omnipool_add_liquidity who pool_id shares) s
  | none => deps.omnipool_add_liquidity who asset_id amount s

/-- The dispatchable `add_liquidity_stable` (lib.rs lines 377–403):
liquidity in a migrated stable asset, optionally forwarding the obtained
shares into the omnipool; a non-migrated asset is refused. -/
def add_liquidity_stable (deps : Deps) (who : AccountId) (asset_id : AssetId)
    (amount : Balance) (mint_nft : Bool) : M Unit := fun s =>
  match s.migrated_assets.get? asset_id with
  | some (pool_id, _) =>
    (M.bindM (deps.do_add_liquidity who pool_id asset_id amount) fun shares =>
      if mint_nft then deps.omnipool_add_liquidity who pool_id shares else M.pureM ()) s
  | none => (Except.error Err.NotStableAsset, s)

/-- The load-and-convert stage of `remove_liquidity` (lib.rs lines
431–440): load the caller's position and, when its referenced asset has
been migrated, rewrite it to the subpool share asset and store it back. -/
def remove_liquidity_prepare (deps : Deps) (who : AccountId)
    (position_id : PositionItemId) : M Position :=
  M.bindM (load_position position_id who) fun position =>
  fun s =>
    match s.migrated_assets.get? position.asset_id with
    | some (pool_id, details) =>
      (M.bindM (fun s' => (convert_position deps pool_id details position, s'))
        fun converted =>
       M.bindM (set_position position_id converted) fun _ =>
       M.pureM converted) s
    | none => M.pureM position s

/-- The dispatchable `remove_liquidity` (lib.rs lines 423–460). -/
def remove_liquidity (deps : Deps) (who : AccountId) (position_id : PositionItemId)
    (share_amount : Balance) (asset : Option AssetId) : M Unit :=
  M.bindM (remove_liquidity_prepare deps who position_id) fun position =>
  M.bindM (deps.omnipool_remove_liquidity who position_id share_amount) fun _ =>
  fun s =>
    match s.subpools.get? position.asset_id, asset with
    | some _, some withdraw_asset =>
      (deps.remove_liquidity_one_asset who position.asset_id withdraw_asset
        (freeBalance s position.asset_id who)) s
    | some _, none => (Except.error Err.WithdrawAssetNotSpecified, s)
    | none, _ => (Except.ok (), s)

/-- The dispatchable `sell` (lib.rs lines 487–547): route the trade by the
`MigratedAssets` registry entries of the two assets. -/
def sell (deps : Deps) (who : AccountId) (asset_in asset_out : AssetId)
    (amount min_buy_amount : Balance) : M Unit := fun s =>
  match s.migrated_assets.get? asset_in, s.migrated_assets.get? asset_out with
  | none, none =>
    deps.omnipool_sell who asset_in asset_out amount min_buy_amount s
  | some (pool_id_in, _), some (pool_id_out, _) =>
    if pool_id_in = pool_id_out then
      deps.stableswap_sell who pool_id_in asset_in asset_out amount min_buy_amount s
    else
      resolve_sell_between_subpools deps who asset_in asset_out pool_id_in pool_id_out amount
        min_buy_amount s
  | some (pool_id_in, _), none =>
    resolve_mixed_trade_iso_out_given_stable_in deps who asset_in asset_out pool_id_in amount
      min_buy_amount s
  | none, some (pool_id_out, _) =>
    resolve_mixed_trade_stable_out_given_asset_in deps who asset_in asset_out pool_id_out amount
      min_buy_amount s

/-- The dispatchable `buy` (lib.rs lines 574–634): route the trade by the
`MigratedAssets` registry entries of the two assets. -/
def buy (deps : Deps) (who : AccountId) (asset_out asset_in : AssetId)
    (amount max_sell_amount : Balance) : M Unit := fun s =>
  match s.migrated_assets.get? asset_in, s.migrated_assets.get? asset_out with
  | none, none =>
    deps.omnipool_buy who asset_out asset_in amount max_sell_amount s
  | some (pool_id_in, _), some (pool_id_out, _) =>
    if pool_id_in = pool_id_out then
      deps.stableswap_buy who pool_id_in asset_out asset_in amount max_sell_amount s
    else
      resolve_buy_between_subpools deps who asset_in asset_out pool_id_in pool_id_out amount
        max_sell_amount s
  | some (pool_id_in, _), none =>
    resolve_mixed_trade_stable_in_given_asset_out deps who asset_in asset_out pool_id_in amount
      max_sell_amount s
  | none, some (pool_id_out, _) =>
    resolve_mixed_trade_iso_in_given_stable_out deps who asset_in asset_out pool_id_out amount
      max_sell_amount s

/-- Modelled from the spec: the atomic scope wrapping every dispatched
call (§5 "all steps inside one resolution case form a single atomic
scope"; frame transactional dispatch together with the
`#[require_transactional]` markers on the resolvers, both outside src/):
on error every storage write performed inside the call is discarded and
the pre-call state is returned. -/
def dispatchCall (f : M Unit) (s : ChainState) : Except Err Unit × ChainState :=
  match f s with
  | (Except.ok u, s₁) => (Except.ok u, s₁)
  | (Except.error e, _) => (Except.error e, s)

/-- Routing case of an asset pair, as the specification's classification
describes it (§4.4): both native, both migrated to one pool, both migrated
to different pools, or exactly one migrated. -/
inductive TradeRoute
  | bothOmnipool
  | sameSubpool (pool_id : AssetId)
  | differentSubpools (pool_id_in pool_id_out : AssetId)
  | stableInOnly (pool_id_in : AssetId)
  | stableOutOnly (pool_id_out : AssetId)
deriving DecidableEq, Repr

/-- Classification of an (asset_in, asset_out) pair solely from the two
`MigratedAssets` registry lookups, following the spec's words; every pair
falls into exactly one case because this is a total function of the two
lookups. -/
def classify_pair (reg : Map AssetId (AssetId × AssetDetail)) (asset_in asset_out : AssetId) :
    TradeRoute :=
  match reg.get? asset_in, reg.get? asset_out with
  | none, none => TradeRoute.bothOmnipool
  | some (pool_id_in, _), some (pool_id_out, _) =>
    if pool_id_in = pool_id_out then TradeRoute.sameSubpool pool_id_in
    else TradeRoute.differentSubpools pool_id_in pool_id_out
  | some (pool_id_in, _), none => TradeRoute.stableInOnly pool_id_in
  | none, some (pool_id_out, _) => TradeRoute.stableOutOnly pool_id_out

/-- Concrete dependency record used by the closed witness computations:
identity-like math collaborators and inert pallet collaborators. -/
def testDeps : Deps where
  hubAssetId := 1
  protocolAccount := 100
  poolAccount := fun p => 200 + p
  assetFee := 0
  protocolFee := 0
  is_hub_asset_allowed := fun _ => true
  omnipool_sell := fun _ _ _ _ _ => M.pureM ()
  omnipool_buy := fun _ _ _ _ _ => M.pureM ()
  omnipool_add_liquidity := fun _ _ _ => M.pureM ()
  omnipool_remove_liquidity := fun _ _ _ => M.pureM ()
  stableswap_sell := fun _ _ _ _ _ _ => M.pureM ()
  stableswap_buy := fun _ _ _ _ _ _ => M.pureM ()
  do_add_liquidity := fun _ _ _ amount => M.pureM amount
  remove_liquidity_one_asset := fun _ _ _ _ => M.pureM ()
  update_omnipool_state_given_trade_result := fun _ _ _ => M.pureM ()
  update_omnipool_state_given_hub_asset_trade := fun _ _ => M.pureM ()
  update_asset_state := fun _ _ => M.pureM ()
  calculate_shares_removed := fun _ _ amount _ _ _ => some amount
  calculate_shares_for_amount := fun _ _ amount _ _ => some amount
  calculate_amount_to_add_for_shares := fun _ _ sh _ _ => some sh
  calculate_withdraw_one_asset := fun _ sh _ _ _ _ => some (sh, 0)
  calculate_buy_state_changes := fun _ _ amount _ _ _ => some ⟨⟨amount, amount⟩, ⟨amount, amount⟩⟩
  calculate_sell_state_changes := fun _ _ amount _ _ _ => some ⟨⟨amount, amount⟩, ⟨amount, amount⟩⟩
  calculate_sell_hub_state_changes := fun _ amount _ _ _ => some ⟨⟨amount, amount⟩⟩
  calculate_buy_for_hub_asset_state_changes := fun _ amount _ _ _ => some ⟨⟨amount, amount⟩⟩
  create_new_subpool := fun a b =>
    some ⟨a.reserve + b.reserve, a.hub_reserve + b.hub_reserve, a.reserve + b.reserve⟩
  calculate_asset_migration_details := fun st _ _ =>
    some (⟨1, st.shares, st.hub_reserve, st.reserve⟩,
      some ⟨st.reserve, st.hub_reserve, st.shares⟩)
  convert_position_math := fun p _ => some ⟨p.amount, p.shares, p.price⟩

/-- Concrete chain state used by the closed witness computations: two
subpools (share assets 5 and 6) holding the migrated assets {2, 3} and
{4}, one native omnipool asset 10, funded accounts, and two LP positions
of account 42. -/
def testState : ChainState where
  omnipool_assets :=
    [(5, ⟨1000, 500, 1000, 100, Tradability.default⟩),
     (6, ⟨800, 400, 800, 100, Tradability.default⟩),
     (10, ⟨50, 25, 50, 100, Tradability.default⟩)]
  stable_pools := [(5, ⟨[2, 3], 100, 0, 0⟩), (6, ⟨[4, 7], 100, 0, 0⟩)]
  stable_tradability := []
  balances :=
    [((2, 42), 500), ((2, 205), 1000), ((3, 205), 1000),
     ((4, 206), 1000), ((7, 206), 1000),
     ((2, 100), 0), ((10, 100), 600), ((1, 100), 700), ((10, 42), 80), ((1, 42), 90)]
  issuance := [(5, 1000), (6, 800)]
  positions := [(7, (42, ⟨5, 11, 13, 17⟩)), (8, (42, ⟨10, 19, 23, 29⟩))]
  migrated_assets :=
    [(2, (5, ⟨1, 0, 0, 0⟩)), (3, (5, ⟨1, 0, 0, 0⟩)), (4, (6, ⟨1, 0, 0, 0⟩))]
  subpools := [(5, ()), (6, ())]
  imbalance := 0

/-- Chain state on which a cross-subpool sell passes its limit check and
performs its first ledger transfer, then fails on the second transfer
(subpool 6's account holds none of asset 4): the inner run errors only
after a mutation. -/
def testStateFail : ChainState :=
  { testState with balances := [((2, 42), 500), ((2, 205), 1000), ((3, 205), 1000)] }

/-- Chain state with two native omnipool assets 11 and 12 (reserves 30 and
40 held by the protocol account) and no subpool yet, on which
`create_subpool` succeeds. -/
def testStateCreate : ChainState where
  omnipool_assets :=
    [(11, ⟨30, 15, 30, 50, Tradability.default⟩), (12, ⟨40, 20, 40, 50, Tradability.default⟩)]
  stable_pools := []
  stable_tradability := []
  balances := [((11, 100), 30), ((12, 100), 40)]
  issuance := []
  positions := []
  migrated_assets := []
  subpools := []
  imbalance := 0

/-- Dependency record whose hub-asset buy formula prices the share asset
far above the hub asset: removing `delta_reserve = 2` shares of the
subpool's share asset costs the trader `delta_hub_reserve = 80` of the hub
asset.  Such outputs are within the hub-pool trade contract's interface
(the two deltas are distinct quantities in distinct units). -/
def bugDeps : Deps :=
  { testDeps with calculate_buy_for_hub_asset_state_changes := fun _ _ _ _ _ => some ⟨⟨2, 80⟩⟩ }

/-- Chain state for the hub-asset-paid buy run: `testState` with the
protocol account additionally holding 50 of share asset 6, so the commit
phase of the hub-asset buy succeeds end to end. -/
def bugState : ChainState :=
  { testState with balances := testState.balances.insert (6, 100) 50 }

/-!  Helper lemmas.  -/

theorem Map.get?_eraseKey {α β : Type} [DecidableEq α] (m : Map α β) (a x : α) :
    (m.eraseKey a).get? x = if a = x then none else m.get? x := by
  induction m with
  | nil => simp [Map.eraseKey, Map.get?]
  | cons hd tl ih =>
    obtain ⟨k, v⟩ := hd
    by_cases hka : k = a
    · subst hka
      by_cases hax : k = x
      · subst hax; simp [Map.eraseKey, ih]
      · simp [Map.eraseKey, Map.get?, hax, ih]
    · by_cases hax : a = x
      · subst hax
        simp [Map.eraseKey, hka, Map.get?, ih]
      · simp [Map.eraseKey, hka, Map.get?, ih, hax]

theorem Map.get?_insert_self {α β : Type} [DecidableEq α] (m : Map α β) (a : α) (b : β) :
    (m.insert a b).get? a = some b := by
  simp [Map.insert, Map.get?]

theorem Map.get?_insert_ne {α β : Type} [DecidableEq α] (m : Map α β) (a : α) (b : β) (x : α)
    (h : a ≠ x) : (m.insert a b).get? x = m.get? x := by
  simp [Map.insert, Map.get?, fun hh : a = x => h hh, Map.get?_eraseKey, h]

theorem Tradability.from_bits_truncate_bits (t : Tradability) :
    Tradability.from_bits_truncate t.bits = t := by
  obtain ⟨s, b, a, r⟩ := t
  cases s <;> cases b <;> cases a <;> cases r <;> decide

theorem M.bindM_ok {α β : Type} {x : M α} {f : α → M β} {s s₁ : ChainState} {a : α}
    (h : x s = (Except.ok a, s₁)) : M.bindM x f s = f a s₁ := by
  simp [M.bindM, h]

theorem M.bindM_err {α β : Type} {x : M α} {f : α → M β} {s s₁ : ChainState} {e : Err}
    (h : x s = (Except.error e, s₁)) : M.bindM x f s = (Except.error e, s₁) := by
  simp [M.bindM, h]

/-- Rollback of the atomic dispatch wrapper: an erroring call leaves the
pre-call state. -/
theorem dispatchCall_rollback (f : M Unit) (s : ChainState) (e : Err) (s' : ChainState)
    (h : dispatchCall f s = (Except.error e, s')) : s' = s := by
  unfold dispatchCall at h
  rcases hfs : f s with ⟨r, st⟩
  cases r with
  | ok u => rw [hfs] at h; exact absurd h (by simp)
  | error e₂ => rw [hfs] at h; exact (Prod.mk.injEq _ _ _ _ ▸ h).2.symm ▸ rfl

/-- C2: `sell` and `buy` classify the (asset_in, asset_out) pair solely by
the two `MigratedAssets` registry lookups — neither migrated delegates to
the omnipool's own sell/buy, both migrated to the same subpool delegates
to that stableswap pool's own sell/buy, and both-different or
exactly-one-migrated pairs are resolved by the engine itself; the
classifier is a total function of the pair, so every pair falls into
exactly one of the cases. -/
theorem C2_trade_routing (deps : Deps) (who : AccountId) (asset_in asset_out : AssetId)
    (amount limit : Balance) (s : ChainState) :
    (sell deps who asset_in asset_out amount limit s =
      match classify_pair s.migrated_assets asset_in asset_out with
      | TradeRoute.bothOmnipool => deps.omnipool_sell who asset_in asset_out amount limit s
      | TradeRoute.sameSubpool p => deps.stableswap_sell who p asset_in asset_out amount limit s
      | TradeRoute.differentSubpools pin pout =>
        resolve_sell_between_subpools deps who asset_in asset_out pin pout amount limit s
      | TradeRoute.stableInOnly pin =>
        resolve_mixed_trade_iso_out_given_stable_in deps who asset_in asset_out pin amount limit s
      | TradeRoute.stableOutOnly pout =>
        resolve_mixed_trade_stable_out_given_asset_in deps who asset_in asset_out pout amount
          limit s) ∧
    (buy deps who asset_out asset_in amount limit s =
      match classify_pair s.migrated_assets asset_in asset_out with
      | TradeRoute.bothOmnipool => deps.omnipool_buy who asset_out asset_in amount limit s
      | TradeRoute.sameSubpool p => deps.stableswap_buy who p asset_out asset_in amount limit s
      | TradeRoute.differentSubpools pin pout =>
        resolve_buy_between_subpools deps who asset_in asset_out pin pout amount limit s
      | TradeRoute.stableInOnly pin =>
        resolve_mixed_trade_stable_in_given_asset_out deps who asset_in asset_out pin amount
          limit s
      | TradeRoute.stableOutOnly pout =>
        resolve_mixed_trade_iso_in_given_stable_out deps who asset_in asset_out pout amount
          limit s) := by
  constructor
  · simp only [sell, classify_pair]
    rcases h1 : s.migrated_assets.get? asset_in with _ | ⟨pin, da⟩ <;>
      rcases h2 : s.migrated_assets.get? asset_out with _ | ⟨pout, db⟩ <;> simp
    by_cases hp : pin = pout <;> simp [hp]
  · simp only [buy, classify_pair]
    rcases h1 : s.migrated_assets.get? asset_in with _ | ⟨pin, da⟩ <;>
      rcases h2 : s.migrated_assets.get? asset_out with _ | ⟨pout, db⟩ <;> simp
    by_cases hp : pin = pout <;> simp [hp]

/-- C5: in the engine-resolved mixed trades (one asset migrated, the other
native), a trade whose bought asset is the hub asset fails with the
omnipool's `NotAllowed`, with no state change: the first two conjuncts are
the sell and buy resolvers with a native `asset_out`; the last two show
that a hub `asset_in` is redirected to the specialized hub-asset-sale
resolvers, so the hub asset can be sold but never bought. -/
theorem C5_hub_asset_never_bought (deps : Deps) (who : AccountId)
    (asset_in asset_out pool_id : AssetId) (amount limit : Balance) (s : ChainState)
    (h : asset_out = deps.hubAssetId) :
    (resolve_mixed_trade_iso_out_given_stable_in deps who asset_in asset_out pool_id amount limit
        s = (Except.error (Err.omnipool OmnipoolError.NotAllowed), s)) ∧
    (resolve_mixed_trade_stable_in_given_asset_out deps who asset_in asset_out pool_id amount
        limit s = (Except.error (Err.omnipool OmnipoolError.NotAllowed), s)) ∧
    (resolve_mixed_trade_stable_out_given_asset_in deps who deps.hubAssetId asset_out pool_id
        amount limit s =
      resolve_mixed_trade_stable_out_given_hub_asset_in deps who deps.hubAssetId asset_out
        pool_id amount limit s) ∧
    (resolve_mixed_trade_iso_in_given_stable_out deps who deps.hubAssetId asset_out pool_id
        amount limit s =
      resolve_mixed_trade_hub_asset_in_given_stable_out deps who deps.hubAssetId asset_out
        pool_id amount limit s) := by
  subst h
  refine ⟨?_, ?_, ?_, ?_⟩
  · simp [resolve_mixed_trade_iso_out_given_stable_in, mixed_iso_out_given_stable_in_plan,
      pEnsure, Bind.bind, Except.bind]
  · simp [resolve_mixed_trade_stable_in_given_asset_out, mixed_stable_in_given_asset_out_plan,
      pEnsure, Bind.bind, Except.bind]
  · simp [resolve_mixed_trade_stable_out_given_asset_in]
  · simp [resolve_mixed_trade_iso_in_given_stable_out]

/-- Closed instance of C5: buying the hub asset (id 1 under `testDeps`)
with a migrated stable asset fails with the omnipool's `NotAllowed` and
leaves the state untouched. -/
theorem C5_hub_asset_never_bought_witness :
    resolve_mixed_trade_iso_out_given_stable_in testDeps 42 2 1 5 30 0 testState =
      (Except.error (Err.omnipool OmnipoolError.NotAllowed), testState) :=
  (C5_hub_asset_never_bought testDeps 42 2 1 5 30 0 testState rfl).1

/-- C3: the claim fails on the code at the hub-asset-paid buy resolver.
The amount debited from the trader there is
`buy_changes.asset.delta_hub_reserve` (the quantity transferred out of the
trader's account), but the resolver's limit check bounds
`buy_changes.asset.delta_reserve` — the share amount withdrawn from the
omnipool, a different quantity in different units.  On this concrete run
the computed debit is 80 against a `max_limit` of 5, yet the call commits
with `Except.ok` and the trader's hub-asset balance falls by 80; every
other engine resolver checks the amount actually credited to or debited
from the trader. -/
theorem C3_hub_buy_limit_check_divergence :
    (resolve_mixed_trade_hub_asset_in_given_stable_out bugDeps 42 1 4 6 7 5 bugState).1 =
      Except.ok () ∧
    freeBalance bugState bugDeps.hubAssetId 42 -
      freeBalance
        (resolve_mixed_trade_hub_asset_in_given_stable_out bugDeps 42 1 4 6 7 5 bugState).2
        bugDeps.hubAssetId 42 = 80 ∧
    5 < 80 := ⟨by rfl, by rfl, by decide⟩

/-- C9: position conversion is idempotent at the `remove_liquidity` call
site — when the stored position's referenced asset id has no entry of its
own in `MigratedAssets` (as is the case for a subpool share asset), the
load-and-convert stage returns the stored position with amount, shares and
price untouched, and writes nothing. -/
theorem C9_conversion_idempotent (deps : Deps) (who : AccountId)
    (position_id : PositionItemId) (s : ChainState) (p : Position)
    (h1 : s.positions.get? position_id = some (who, p))
    (h2 : s.migrated_assets.get? p.asset_id = none) :
    remove_liquidity_prepare deps who position_id s = (Except.ok p, s) := by
  simp [remove_liquidity_prepare, M.bindM, load_position, h1, h2, M.pureM]

/-- Closed instance of C9: position 7 already references share asset 5
(which has no `MigratedAssets` entry), so the prepare stage is the
identity on both the position and the state. -/
theorem C9_conversion_idempotent_witness :
    remove_liquidity_prepare testDeps 42 7 testState = (Except.ok ⟨5, 11, 13, 17⟩, testState) :=
  C9_conversion_idempotent testDeps 42 7 testState ⟨5, 11, 13, 17⟩ rfl rfl

/-- C8: a `remove_liquidity` call on a position whose (possibly
just-converted) referenced asset id is a registered subpool share asset,
made without a withdraw asset, fails with `WithdrawAssetNotSpecified`
(given that the preceding load/convert stage and the omnipool removal
itself succeed). -/
theorem C8_withdraw_asset_required (deps : Deps) (who : AccountId)
    (position_id : PositionItemId) (share_amount : Balance) (s s₁ s₂ : ChainState) (p : Position)
    (h1 : remove_liquidity_prepare deps who position_id s = (Except.ok p, s₁))
    (h2 : deps.omnipool_remove_liquidity who position_id share_amount s₁ = (Except.ok (), s₂))
    (h3 : s₂.subpools.get? p.asset_id = some ()) :
    remove_liquidity deps who position_id share_amount none s =
      (Except.error Err.WithdrawAssetNotSpecified, s₂) := by
  simp only [remove_liquidity, M.bindM_ok h1, M.bindM_ok h2, h3]

/-- Closed instance of C8: removing liquidity from position 7 (which
references registered subpool share asset 5) without a withdraw asset
fails with `WithdrawAssetNotSpecified`. -/
theorem C8_withdraw_asset_required_witness :
    remove_liquidity testDeps 42 7 5 none testState =
      (Except.error Err.WithdrawAssetNotSpecified, testState) :=
  C8_withdraw_asset_required testDeps 42 7 5 testState testState testState ⟨5, 11, 13, 17⟩
    (by rfl) rfl rfl

/-- C10: when the (possibly converted) position does not reference a
registered subpool share asset, the withdraw-asset argument of
`remove_liquidity` is ignored — the call gives the same result and state
for `none` as for any `some x`, and when the plain omnipool removal
succeeds the whole call succeeds with its state (no stableswap withdrawal,
no error). -/
theorem C10_withdraw_arg_ignored (deps : Deps) (who : AccountId)
    (position_id : PositionItemId) (share_amount : Balance) (x : AssetId) (s s₁ : ChainState)
    (p : Position)
    (h1 : remove_liquidity_prepare deps who position_id s = (Except.ok p, s₁))
    (h2 : ∀ s₂, deps.omnipool_remove_liquidity who position_id share_amount s₁ =
        (Except.ok (), s₂) → s₂.subpools.get? p.asset_id = none) :
    (remove_liquidity deps who position_id share_amount none s =
      remove_liquidity deps who position_id share_amount (some x) s) ∧
    (∀ s₂, deps.omnipool_remove_liquidity who position_id share_amount s₁ = (Except.ok (), s₂) →
      remove_liquidity deps who position_id share_amount (some x) s = (Except.ok (), s₂)) := by
  constructor
  · simp only [remove_liquidity, M.bindM_ok h1]
    rcases hr : deps.omnipool_remove_liquidity who position_id share_amount s₁ with ⟨r, s₂⟩
    cases r with
    | error e => simp [M.bindM, hr]
    | ok u =>
      cases u
      have h3 := h2 s₂ hr
      simp [M.bindM, hr, h3]
  · intro s₂ hr
    have h3 := h2 s₂ hr
    simp only [remove_liquidity, M.bindM_ok h1, M.bindM_ok hr, h3]

/-- Closed instance of C10: position 8 references native asset 10 (not a
registered subpool), so removing with no withdraw asset equals removing
with withdraw asset 4. -/
theorem C10_withdraw_arg_ignored_witness :
    remove_liquidity testDeps 42 8 3 none testState =
      remove_liquidity testDeps 42 8 3 (some 4) testState :=
  (C10_withdraw_arg_ignored testDeps 42 8 3 4 testState testState ⟨10, 19, 23, 29⟩ rfl
    (fun s₂ h => by cases h; rfl)).1

/-- C1: every entry point of the engine runs inside the atomic dispatch
scope — whenever the call returns an error, the returned state is exactly
the pre-call state, for the seven dispatchables.  The final conjunct shows
the rollback is not vacuous: on a concrete cross-subpool sell the inner
run errors only after its first ledger transfer has already mutated the
balances, and the dispatched call still returns the untouched entry
state. -/
theorem C1_atomic_rollback (deps : Deps) (who : AccountId) (s : ChainState)
    (share_asset asset_a asset_b : AssetId) (amount limit : Balance)
    (cap ampl : Nat) (tf wf : Permill) (share_amount : Balance)
    (position_id : PositionItemId) (asset : Option AssetId) (mint_nft : Bool) :
    (∀ e s', dispatchCall (sell deps who asset_a asset_b amount limit) s = (Except.error e, s') →
      s' = s) ∧
    (∀ e s', dispatchCall (buy deps who asset_b asset_a amount limit) s = (Except.error e, s') →
      s' = s) ∧
    (∀ e s', dispatchCall (add_liquidity deps who asset_a amount) s = (Except.error e, s') →
      s' = s) ∧
    (∀ e s', dispatchCall (add_liquidity_stable deps who asset_a amount mint_nft) s =
      (Except.error e, s') → s' = s) ∧
    (∀ e s', dispatchCall (remove_liquidity deps who position_id share_amount asset) s =
      (Except.error e, s') → s' = s) ∧
    (∀ e s', dispatchCall (create_subpool deps share_asset asset_a asset_b cap ampl tf wf) s =
      (Except.error e, s') → s' = s) ∧
    (∀ e s', dispatchCall (migrate_asset_to_subpool deps share_asset asset_a) s =
      (Except.error e, s') → s' = s) ∧
    ((sell testDeps 42 2 4 30 0 testStateFail).1 = Except.error Err.InsufficientBalance ∧
      (sell testDeps 42 2 4 30 0 testStateFail).2 ≠ testStateFail ∧
      dispatchCall (sell testDeps 42 2 4 30 0) testStateFail =
        (Except.error Err.InsufficientBalance, testStateFail)) := by
  refine ⟨fun e s' h => dispatchCall_rollback _ _ _ _ h,
    fun e s' h => dispatchCall_rollback _ _ _ _ h,
    fun e s' h => dispatchCall_rollback _ _ _ _ h,
    fun e s' h => dispatchCall_rollback _ _ _ _ h,
    fun e s' h => dispatchCall_rollback _ _ _ _ h,
    fun e s' h => dispatchCall_rollback _ _ _ _ h,
    fun e s' h => dispatchCall_rollback _ _ _ _ h,
    by rfl, by decide, by rfl⟩

/-- Closed instance of C1: the dispatched cross-subpool sell that errors
mid-commit returns the exact entry state. -/
theorem C1_atomic_rollback_witness :
    dispatchCall (sell testDeps 42 2 4 30 0) testStateFail =
      (Except.error Err.InsufficientBalance, testStateFail) ∧ testStateFail = testStateFail :=
  ⟨by rfl,
    (C1_atomic_rollback testDeps 42 testStateFail 5 2 4 30 0 0 0 0 0 0 9 none true).1
      Err.InsufficientBalance testStateFail (by rfl)⟩

/-- C7: a successful `create_subpool(share_asset, asset_a, asset_b, …)` on
two assets native to the hub pool (the hypotheses are the success
conditions of each step) creates a stableswap pool over exactly the two
assets with their omnipool tradability flags copied, transfers both
omnipool reserves from the protocol account into the subpool's account,
removes both assets from the omnipool, registers the share asset as a new
omnipool asset with the state computed by the math collaborator, records a
`MigratedAssets` entry for each asset computed with no prior stable-pool
context and zero issuance, and registers the share asset in `Subpools`. -/
theorem C7_create_subpool_effects (deps : Deps) (s : ChainState)
    (share_asset asset_a asset_b : AssetId) (cap ampl : Nat) (tf wf : Permill)
    (sa sb : HubAssetState) (m : MathAssetState)
    (da db : AssetDetail) (oa ob : Option MigStateChange)
    (hab : asset_a ≠ asset_b)
    (hsa' : share_asset ≠ asset_a) (hsb' : share_asset ≠ asset_b)
    (hacct : deps.poolAccount share_asset ≠ deps.protocolAccount)
    (ha : s.omnipool_assets.get? asset_a = some sa)
    (hb : s.omnipool_assets.get? asset_b = some sb)
    (hnp : s.stable_pools.get? share_asset = none)
    (hno : s.omnipool_assets.get? share_asset = none)
    (hbala : sa.reserve ≤ freeBalance s asset_a deps.protocolAccount)
    (hbalb : sb.reserve ≤ freeBalance s asset_b deps.protocolAccount)
    (hm : deps.create_new_subpool sa sb = some m)
    (hda : deps.calculate_asset_migration_details sa none 0 = some (da, oa))
    (hdb : deps.calculate_asset_migration_details sb none 0 = some (db, ob)) :
    (create_subpool deps share_asset asset_a asset_b cap ampl tf wf s).1 = Except.ok () ∧
    ((create_subpool deps share_asset asset_a asset_b cap ampl tf wf s).2.stable_pools.get?
      share_asset = some ⟨[asset_a, asset_b], ampl, tf, wf⟩) ∧
    ((create_subpool deps share_asset asset_a asset_b cap ampl tf wf s).2.stable_tradability.get?
      (share_asset, asset_a) = some (to_stableswap_tradable sa.tradable)) ∧
    ((create_subpool deps share_asset asset_a asset_b cap ampl tf wf s).2.stable_tradability.get?
      (share_asset, asset_b) = some (to_stableswap_tradable sb.tradable)) ∧
    (freeBalance (create_subpool deps share_asset asset_a asset_b cap ampl tf wf s).2 asset_a
      (deps.poolAccount share_asset) =
      freeBalance s asset_a (deps.poolAccount share_asset) + sa.reserve) ∧
    (freeBalance (create_subpool deps share_asset asset_a asset_b cap ampl tf wf s).2 asset_b
      (deps.poolAccount share_asset) =
      freeBalance s asset_b (deps.poolAccount share_asset) + sb.reserve) ∧
    (freeBalance (create_subpool deps share_asset asset_a asset_b cap ampl tf wf s).2 asset_a
      deps.protocolAccount = freeBalance s asset_a deps.protocolAccount - sa.reserve) ∧
    (freeBalance (create_subpool deps share_asset asset_a asset_b cap ampl tf wf s).2 asset_b
      deps.protocolAccount = freeBalance s asset_b deps.protocolAccount - sb.reserve) ∧
    ((create_subpool deps share_asset asset_a asset_b cap ampl tf wf s).2.omnipool_assets.get?
      asset_a = none) ∧
    ((create_subpool deps share_asset asset_a asset_b cap ampl tf wf s).2.omnipool_assets.get?
      asset_b = none) ∧
    ((create_subpool deps share_asset asset_a asset_b cap ampl tf wf s).2.omnipool_assets.get?
      share_asset = some ⟨m.reserve, m.hub_reserve, m.shares, cap, Tradability.default⟩) ∧
    ((create_subpool deps share_asset asset_a asset_b cap ampl tf wf s).2.migrated_assets.get?
      asset_a = some (share_asset, da)) ∧
    ((create_subpool deps share_asset asset_a asset_b cap ampl tf wf s).2.migrated_assets.get?
      asset_b = some (share_asset, db)) ∧
    ((create_subpool deps share_asset asset_a asset_b cap ampl tf wf s).2.subpools.get?
      share_asset = some ()) := by
  have hab' := hab.symm
  have hsa'' := hsa'.symm
  have hsb'' := hsb'.symm
  have hacct' := hacct.symm
  simp only [freeBalance] at hbala hbalb
  simp [create_subpool, M.bindM, M.pureM, M.modifyS, okOr, load_asset_state, do_create_pool,
    set_asset_tradability_state, move_liquidity_to_pool, transferM, deposit_shares, depositM,
    omnipool_add_asset, omnipool_remove_asset, freeBalance, totalIssuance,
    Map.get?_insert_self, Map.get?_insert_ne, Map.get?_eraseKey,
    ha, hb, hnp, hno, hm, hda, hdb, hbala, hbalb, hab, hsa', hsb', hacct,
    hab', hsa'', hsb'', hacct']

/-- Closed instance of C7: creating subpool 13 from native assets 11 and
12 on `testStateCreate` succeeds. -/
theorem C7_create_subpool_effects_witness :
    (create_subpool testDeps 13 11 12 50 100 0 0 testStateCreate).1 = Except.ok () :=
  (C7_create_subpool_effects testDeps testStateCreate 13 11 12 50 100 0 0
    ⟨30, 15, 30, 50, Tradability.default⟩ ⟨40, 20, 40, 50, Tradability.default⟩ ⟨70, 35, 70⟩
    ⟨1, 30, 15, 30⟩ ⟨1, 40, 20, 40⟩ (some ⟨30, 15, 30⟩) (some ⟨40, 20, 40⟩)
    (by decide) (by decide) (by decide) (by decide) rfl rfl rfl rfl (by decide) (by decide)
    rfl rfl rfl).1

end HydraDX
